import Mathlib

/-!
Verification of the RESP wire-codec core of the fdb repository.

The development shallowly embeds the Rust sources:
  redis/src/parser/protocol/*.rs        (primitive token parsers, nom-based)
  src/redis/src/parser/protocol/integer.rs, verbatim_string.rs
  redis/src/parser/boolean.rs
  redis/src/parser/bulk_string.rs
  redis/src/parser/serde_resp/deserializer.rs  (type-directed deserializer)
  redis/src/parser/serde_resp/mod.rs           (the Error type)
  redis/src/parser/commands/{mod,get,set}.rs   (command model)
  macro_derive/src/lib.rs                      (DeserializeUntagged derive)

Byte buffers are `List Nat` (byte values); a nom `IResult` becomes a
three-valued result carrying the remaining input on success.  Rust panics
(`unreachable!`, `assert_eq!`, `unwrap`, `expect`) are modelled by a
distinguished `panic` outcome so that "returns an error" and "panics" are
distinguishable, as §7 of the specification requires.
-/

abbrev Bytes := List Nat

/-- Transcribe an ASCII string literal into a byte list. -/
def bytes (s : String) : Bytes := s.toList.map Char.toNat

def CRLF : Bytes := [13, 10]

/-- nom ErrorKind values that the embedded parsers can produce. -/
inductive ErrKind where
  | chr | isNot | tag | digit | eof | tooLarge | noneOf
  deriving DecidableEq, Repr

/-- nom error::Error: the input at the failure point plus an ErrorKind. -/
structure NomErr where
  input : Bytes
  code : ErrKind
  deriving DecidableEq, Repr

/-- Result of a byte-level parser: remaining input and value, a nom error,
or a Rust panic (`unreachable!` / failed `assert` / `unwrap`). -/
inductive RRes (α : Type) where
  | ok : Bytes → α → RRes α
  | err : NomErr → RRes α
  | panic : RRes α
  deriving DecidableEq, Repr

def RRes.isErr : RRes α → Bool
  | .err _ => true
  | _ => false

/-- nom character::complete::char specialised to a byte. -/
def charP (c : Nat) : Bytes → RRes Nat
  | [] => .err ⟨[], .chr⟩
  | b :: r => if b = c then .ok r c else .err ⟨b :: r, .chr⟩

/-- Longest split of a list at the first byte failing the predicate. -/
def takeWhileB (p : Nat → Bool) : Bytes → Bytes × Bytes
  | [] => ([], [])
  | b :: r =>
    if p b then
      let s := takeWhileB p r
      (b :: s.1, s.2)
    else ([], b :: r)

def notCRLFb (b : Nat) : Bool := decide (¬ (b = 13 ∨ b = 10))

/-- nom bytes::complete::is_not specialised to the stop set "\r\n". -/
def isNotCRLF (i : Bytes) : RRes Bytes :=
  let s := takeWhileB notCRLFb i
  if s.1 = [] then .err ⟨i, .isNot⟩ else .ok s.2 s.1

/-- Byte-list prefix test. -/
def isPrefixB : Bytes → Bytes → Bool
  | [], _ => true
  | _ :: _, [] => false
  | a :: t1, b :: t2 => decide (a = b) && isPrefixB t1 t2

/-- nom bytes::complete::tag. -/
def tagP (t i : Bytes) : RRes Bytes :=
  if isPrefixB t i then .ok (i.drop t.length) t else .err ⟨i, .tag⟩

/-- nom bytes::complete::take (complete: insufficient input is an Eof error). -/
def takeP (n : Nat) (i : Bytes) : RRes Bytes :=
  if n ≤ i.length then .ok (i.drop n) (i.take n) else .err ⟨i, .eof⟩

/-- terminator (redis/src/parser/protocol/terminator.rs:12-14): tag "\r\n". -/
def terminator (i : Bytes) : RRes Bytes := tagP CRLF i

/-- The shape delimited(char c, is_not "\r\n", terminator) used by the
integer, simple string, simple error, big number and boolean parsers and by
the bulk/verbatim length headers. -/
def prefixedLine (c : Nat) (i : Bytes) : RRes Bytes :=
  match charP c i with
  | .err e => .err e
  | .panic => .panic
  | .ok i1 _ =>
    match isNotCRLF i1 with
    | .err e => .err e
    | .panic => .panic
    | .ok i2 payload =>
      match terminator i2 with
      | .err e => .err e
      | .panic => .panic
      | .ok i3 _ => .ok i3 payload

def isDigitB (b : Nat) : Bool := decide (48 ≤ b ∧ b ≤ 57)

/-- Numeric value of a decimal digit string (bytes 48-57). -/
def digitsVal (l : Bytes) : Nat := l.foldl (fun a b => a * 10 + (b - 48)) 0

def i64MaxN : Nat := 9223372036854775807

/-- State machine for UTF-8 validation, per the lead-byte/continuation table
std::str::from_utf8 uses: `k` is the number of continuation bytes still
required, and (lo, hi) bounds the next continuation byte (the first
continuation byte after the lead bytes E0, ED, F0, F4 has a narrowed range;
later continuation bytes are always 0x80-0xBF). -/
def utf8Go : Nat → Nat → Nat → Bytes → Bool
  | 0, _, _, [] => true
  | _ + 1, _, _, [] => false
  | 0, _, _, b :: r =>
    if b ≤ 127 then utf8Go 0 0 0 r
    else if 194 ≤ b ∧ b ≤ 223 then utf8Go 1 128 191 r
    else if b = 224 then utf8Go 2 160 191 r
    else if b = 237 then utf8Go 2 128 159 r
    else if 224 ≤ b ∧ b ≤ 239 then utf8Go 2 128 191 r
    else if b = 240 then utf8Go 3 144 191 r
    else if b = 244 then utf8Go 3 128 143 r
    else if 240 ≤ b ∧ b ≤ 243 then utf8Go 3 128 191 r
    else false
  | k + 1, lo, hi, b :: r =>
    if lo ≤ b ∧ b ≤ hi then utf8Go k 128 191 r else false

/-- UTF-8 validity of a byte list, as std::str::from_utf8 checks it. -/
def utf8Valid (l : Bytes) : Bool := utf8Go 0 0 0 l

/-- parse_digits (src/redis/src/parser/protocol/integer.rs:46-56):
std::str::from_utf8 over the whole input, then map_res(digit1, str::parse)
for i64 (overflow of the digit prefix is a parse failure), every failure
collapsed onto ErrorKind::Digit with the full input. -/
def parse_digits (i : Bytes) : RRes Int :=
  if utf8Valid i then
    let s := takeWhileB isDigitB i
    if s.1 = [] then .err ⟨i, .digit⟩
    else if digitsVal s.1 ≤ i64MaxN then .ok s.2 ((digitsVal s.1 : Int))
    else .err ⟨i, .digit⟩
  else .err ⟨i, .digit⟩

/-- integer (src/redis/src/parser/protocol/integer.rs:42-44). -/
def integer (i : Bytes) : RRes Bytes := prefixedLine 58 i

/-- big_number (redis/src/parser/protocol/big_number.rs:102-104). -/
def big_number (i : Bytes) : RRes Bytes := prefixedLine 40 i

/-- simple_string (redis/src/parser/protocol/simple_string.rs:18-20). -/
def simple_string (i : Bytes) : RRes Bytes := prefixedLine 43 i

/-- simple_error (redis/src/parser/protocol/simple_error.rs). -/
def simple_error (i : Bytes) : RRes Bytes := prefixedLine 45 i

/-- boolean (redis/src/parser/boolean.rs:12-14). -/
def boolean (i : Bytes) : RRes Bytes := prefixedLine 35 i

/-- bulk_string (redis/src/parser/bulk_string.rs:24-32): length header,
512 MiB ceiling (ErrorKind::TooLarge on the input after the header),
then exactly len bytes and a terminator. -/
def bulk_string (i : Bytes) : RRes Bytes :=
  match prefixedLine 36 i with
  | .err e => .err e
  | .panic => .panic
  | .ok i1 lenBytes =>
    match parse_digits lenBytes with
    | .err e => .err e
    | .panic => .panic
    | .ok _ len =>
      if len > 512 * 1024 * 1024 then .err ⟨i1, .tooLarge⟩
      else
        match takeP len.toNat i1 with
        | .err e => .err e
        | .panic => .panic
        | .ok i2 data =>
          match terminator i2 with
          | .err e => .err e
          | .panic => .panic
          | .ok i3 _ => .ok i3 data

/-- verbatim_string (src/redis/src/parser/protocol/verbatim_string.rs:27-37):
length header and ceiling as for bulk strings, then a 3-byte encoding tag,
a colon, and len-4 payload bytes.  `len as usize - 4usize` underflows, hence
panics, when the declared length is below 4. -/
def verbatim_string (i : Bytes) : RRes Bytes :=
  match prefixedLine 61 i with
  | .err e => .err e
  | .panic => .panic
  | .ok i1 lenBytes =>
    match parse_digits lenBytes with
    | .err e => .err e
    | .panic => .panic
    | .ok _ len =>
      if len > 512 * 1024 * 1024 then .err ⟨i1, .tooLarge⟩
      else
        match takeP 3 i1 with
        | .err e => .err e
        | .panic => .panic
        | .ok i2 _encoding =>
          match charP 58 i2 with
          | .err e => .err e
          | .panic => .panic
          | .ok i3 _ =>
            if len.toNat < 4 then .panic
            else
              match takeP (len.toNat - 4) i3 with
              | .err e => .err e
              | .panic => .panic
              | .ok i4 data =>
                match terminator i4 with
                | .err e => .err e
                | .panic => .panic
                | .ok i5 _ => .ok i5 data

/-- string (redis/src/parser/protocol/mod.rs:150-152):
alt((simple_string, bulk_string, verbatim_string)); as with nom's alt over
nom::error::Error, the error of the last alternative is returned. -/
def string (i : Bytes) : RRes Bytes :=
  match simple_string i with
  | .ok j v => .ok j v
  | .panic => .panic
  | .err _ =>
    match bulk_string i with
    | .ok j v => .ok j v
    | .panic => .panic
    | .err _ => verbatim_string i

/-- opt(sign) (src/redis/src/parser/protocol/integer.rs:32-40, 62): consume
one leading sign byte if present, defaulting the sign factor to 1. -/
def optSign (i : Bytes) : Bytes × Int :=
  match i with
  | b :: r => if b = 45 then (r, -1) else if b = 43 then (r, 1) else (b :: r, 1)
  | [] => ([], 1)

/-- The alt((integer, big_number, string)) alternation inside
Integer::try_parse (src/redis/src/parser/protocol/integer.rs:61). -/
def integer_alt (value : Bytes) : RRes Bytes :=
  match integer value with
  | .ok j v => RRes.ok j v
  | .panic => .panic
  | .err _ =>
    match big_number value with
    | .ok j v => RRes.ok j v
    | .panic => .panic
    | .err _ => string value

/-- Integer::try_parse (src/redis/src/parser/protocol/integer.rs:58-72):
alt((integer, big_number, string)), then opt(sign) and parse_digits over the
extracted payload; `assert_eq!(j.len(), 0)` panics when digit parsing leaves
a non-empty remainder. -/
def integerTryParse (value : Bytes) : RRes Int :=
  match integer_alt value with
  | .err e => .err e
  | .panic => .panic
  | .ok i num =>
    let s := optSign num
    match parse_digits s.1 with
    | .err e => .err e
    | .panic => .panic
    | .ok j digits =>
      if j = [] then .ok i (s.2 * digits) else .panic

/-- Boolean::try_parse (redis/src/parser/boolean.rs:17-31): the payload
between the prefix and the terminator must be "f" or "t"; anything else hits
`unreachable!("booleans can only be f or t")`, a panic. -/
def booleanTryParse (value : Bytes) : RRes Bool :=
  match boolean value with
  | .err e => .err e
  | .panic => .panic
  | .ok i b =>
    if b = bytes "f" then .ok i false
    else if b = bytes "t" then .ok i true
    else .panic

/-! ## The serde_resp error type and deserializer state

The deserializer (redis/src/parser/serde_resp/deserializer.rs) wraps one
byte slice and advances it; each monomorphised decode entry below maps the
remaining input to a new remaining input and a value, an error, or a panic.
-/

/-- Error (redis/src/parser/serde_resp/mod.rs:11-46).  Payload types are
simplified where they do not matter for equality (the Utf8Error, IoError
payloads); UnitStructNameMismatch carries the two names as byte lists. -/
inductive RError where
  | Message (s : String)
  | TrailingCharacters
  | Parsing (e : NomErr)
  | IntegerOutOfRange (min max actual : Int)
  | CharNotSupported
  | BytesNotSupported
  | StrParsingError
  | StringParsingError
  | IoError
  | InvalidCommand (s : String)
  | UnitStructNameMismatch (expected found : Bytes)
  deriving DecidableEq, Repr

/-- Outcome of one deserializer operation: the advanced input and a value,
a returned RError, or a panic. -/
inductive DRes (α : Type) where
  | ok : Bytes → α → DRes α
  | err : RError → DRes α
  | panic : DRes α
  deriving DecidableEq, Repr

def DRes.isErr : DRes α → Bool
  | .err _ => true
  | _ => false

def DRes.isParsingErr : DRes α → Bool
  | .err (.Parsing _) => true
  | _ => false

/-- Outcome of a from_slice call (deserializer.rs:38-51): the value alone.
Per the source, the trailing-characters check is commented out, so any
unconsumed remainder is discarded. -/
inductive RustRes (α : Type) where
  | ok : α → RustRes α
  | err : RError → RustRes α
  | panic : RustRes α
  deriving DecidableEq, Repr

def runFromSlice (d : Bytes → DRes α) (s : Bytes) : RustRes α :=
  match d s with
  | .ok _ v => .ok v
  | .err e => .err e
  | .panic => .panic

/-- Two's-complement wrap of an integer into a signed width, modelling
Rust numeric `as` casts between integer types. -/
def wrapSigned (bits : Nat) (n : Int) : Int :=
  let m := n % ((2 : Int) ^ bits)
  if m < (2 : Int) ^ (bits - 1) then m else m - (2 : Int) ^ bits

/-- deserialize_i64 (deserializer.rs:154-159): Integer::try_parse, nom errors
wrapped into Error::Parsing by the From impl (mod.rs:48-59). -/
def deserializeI64 (i : Bytes) : DRes Int :=
  match integerTryParse i with
  | .err e => .err (.Parsing e)
  | .panic => .panic
  | .ok j v => .ok j v

/-- deserialize_u32 (deserializer.rs:205-219): Integer::try_parse then the
range check against `u32::MAX as i64` (= 4294967295) and `u32::MIN as i64`. -/
def deserializeU32 (i : Bytes) : DRes Nat :=
  match integerTryParse i with
  | .err e => .err (.Parsing e)
  | .panic => .panic
  | .ok j v =>
    if v > wrapSigned 64 4294967295 ∨ v < wrapSigned 64 0 then
      .err (.IntegerOutOfRange (wrapSigned 128 0) (wrapSigned 128 4294967295) (wrapSigned 128 v))
    else .ok j v.toNat

/-- deserialize_u64 (deserializer.rs:221-235): Integer::try_parse then
`if int > u64::MAX as i64 || int < u64::MIN as i64`.  The comparison bound
`u64::MAX as i64` is the wrapped cast of 2^64-1 into i64; the error payload
uses the (value-preserving) `as i128` casts instead. -/
def deserializeU64 (i : Bytes) : DRes Nat :=
  match integerTryParse i with
  | .err e => .err (.Parsing e)
  | .panic => .panic
  | .ok j v =>
    if v > wrapSigned 64 (2 ^ 64 - 1) ∨ v < wrapSigned 64 0 then
      .err (.IntegerOutOfRange (wrapSigned 128 0) (wrapSigned 128 (2 ^ 64 - 1)) (wrapSigned 128 v))
    else .ok j v.toNat

/-- deserialize_u128 (deserializer.rs:237-252): Integer::try_parse then
`if int > u128::MAX as i64 || int < u128::MIN as i64`, the error payload
using `u128::MAX as i128` (which also wraps) and `int as i128`. -/
def deserializeU128 (i : Bytes) : DRes Nat :=
  match integerTryParse i with
  | .err e => .err (.Parsing e)
  | .panic => .panic
  | .ok j v =>
    if v > wrapSigned 64 (2 ^ 128 - 1) ∨ v < wrapSigned 64 0 then
      .err (.IntegerOutOfRange (wrapSigned 128 0) (wrapSigned 128 (2 ^ 128 - 1)) (wrapSigned 128 v))
    else .ok j v.toNat

/-- deserialize_bool (deserializer.rs:101-105). -/
def deserializeBool (i : Bytes) : DRes Bool :=
  match booleanTryParse i with
  | .err e => .err (.Parsing e)
  | .panic => .panic
  | .ok j v => .ok j v

/-- deserialize_str / deserialize_string (deserializer.rs:291-300): the
string combinator, then std::str::from_utf8 (failure becomes
Error::StrParsingError via the From impl). -/
def deserializeString (i : Bytes) : DRes Bytes :=
  match string i with
  | .err e => .err (.Parsing e)
  | .panic => .panic
  | .ok j s => if utf8Valid s then .ok j s else .err .StrParsingError

/-- Modelled from the spec: the deserializer imports a protocol-level `null`
combinator (deserializer.rs:9) whose defining module is absent from the
snapshot (redis/src/parser/protocol/mod.rs exports no such function; the
file null.rs only recognises the RESP3 "_\r\n" literal).  Spec section 8
states that all three null encodings "$-1\r\n", "*-1\r\n" and "_\r\n" decode
to None/unit, matching the serde_resp unit tests, so the combinator is
modelled as the alternation of the three literal tags (each of which exists
individually in the sources: null_bulk_string.rs, null_array.rs, null.rs). -/
def nullP (i : Bytes) : RRes Unit :=
  match tagP (bytes "$-1\r\n") i with
  | .ok j _ => .ok j ()
  | _ =>
    match tagP (bytes "*-1\r\n") i with
    | .ok j _ => .ok j ()
    | _ =>
      match tagP (bytes "_\r\n") i with
      | .ok j _ => .ok j ()
      | .err e => .err e
      | .panic => .panic

/-- deserialize_unit (deserializer.rs:327-331): parse a null token. -/
def deserializeUnit (i : Bytes) : DRes Unit :=
  match nullP i with
  | .err e => .err (.Parsing e)
  | .panic => .panic
  | .ok j _ => .ok j ()

/-- ASCII lowercase, modelling str::to_lowercase on the ASCII names that
occur as command markers. -/
def lowerAscii (l : Bytes) : Bytes :=
  l.map (fun b => if 65 ≤ b ∧ b ≤ 90 then b + 32 else b)

/-- deserialize_unit_struct (deserializer.rs:333-344): a string token whose
lowercase form equals the lowercase marker name, else
UnitStructNameMismatch. -/
def deserializeUnitStruct (name : Bytes) (i : Bytes) : DRes Unit :=
  match deserializeString i with
  | .err e => .err e
  | .panic => .panic
  | .ok j s =>
    if lowerAscii s = lowerAscii name then .ok j ()
    else .err (.UnitStructNameMismatch name s)

/-- deserialize_option (deserializer.rs:314-325) at an i64 inner shape:
null token → None (consumed); else, if the next token parses as a `string`
combinator token → Some(inner) by delegation; otherwise → None without
consuming input. -/
def deserializeOptionI64 (i : Bytes) : DRes (Option Int) :=
  match nullP i with
  | .ok j _ => .ok j none
  | _ =>
    match string i with
    | .ok _ _ =>
      match deserializeI64 i with
      | .ok j v => .ok j (some v)
      | .err e => .err e
      | .panic => .panic
    | _ => .ok i none

/-- deserialize_option (deserializer.rs:314-325) at a String inner shape. -/
def deserializeOptionString (i : Bytes) : DRes (Option Bytes) :=
  match nullP i with
  | .ok j _ => .ok j none
  | _ =>
    match string i with
    | .ok _ _ =>
      match deserializeString i with
      | .ok j v => .ok j (some v)
      | .err e => .err e
      | .panic => .panic
    | _ => .ok i none

/-- usize::from_str as used on a sequence-length header: optional plus sign,
then decimal digits, overflow above usize::MAX rejected. -/
def usizeParse (l : Bytes) : Option Nat :=
  let ds := match l with
    | 43 :: r => r
    | _ => l
  if ds ≠ [] ∧ (∀ b ∈ ds, isDigitB b) ∧ digitsVal ds < 2 ^ 64 then some (digitsVal ds)
  else none

/-- The header step of deserialize_seq (deserializer.rs:350-363): when
delimited(alt((char ARRAY, char SET, char PUSH)), is_not TERM, terminator)
matches, the length digits go through from_utf8().unwrap() (panic on invalid
UTF-8) and parse::<usize>() (error); otherwise the input is left untouched
and the element count is unknown. -/
def seqHeader (i : Bytes) : DRes (Option Nat) :=
  let hdr :=
    match charP 42 i with
    | .ok j v => RRes.ok j v
    | .panic => .panic
    | .err _ =>
      match charP 126 i with
      | .ok j v => RRes.ok j v
      | .panic => .panic
      | .err _ => charP 62 i
  match hdr with
  | .err _ => .ok i none
  | .panic => .panic
  | .ok i1 _ =>
    match isNotCRLF i1 with
    | .err _ => .ok i none
    | .panic => .panic
    | .ok i2 lenBytes =>
      match terminator i2 with
      | .err _ => .ok i none
      | .panic => .panic
      | .ok i3 _ =>
        if utf8Valid lenBytes then
          match usizeParse lenBytes with
          | some n => .ok i3 (some n)
          | none => .err (.Message "invalid digit found in string")
        else .panic

/-- Slice::next_element_seed (deserializer.rs:461-479): with a known count,
zero remaining items yields None without running the seed; otherwise the
count is decremented and the seed deserializer runs on the current input. -/
def sliceNext (d : Bytes → DRes α) (i : Bytes) (ni : Option Nat) :
    DRes (Option α) × Option Nat :=
  match ni with
  | some 0 => (.ok i none, some 0)
  | some (m + 1) =>
    (match d i with
     | .ok j v => .ok j (some v)
     | .err e => .err e
     | .panic => .panic, some m)
  | none =>
    (match d i with
     | .ok j v => .ok j (some v)
     | .err e => .err e
     | .panic => .panic, none)

/-! ## The SET command model (redis/src/parser/commands/set.rs)

The derive-generated decode paths are monomorphised: each serde-derived
Deserialize impl becomes one function over the deserializer state.
-/

/-- Existence (set.rs:104-108). -/
inductive Existence where
  | NX | XX
  deriving DecidableEq, Repr

/-- Expiry (set.rs:110-116); the u32 payloads are the decoded values. -/
inductive Expiry where
  | EX (seconds : Nat)
  | PX (ms : Nat)
  | EXAT (timestamp : Nat)
  | KEEPTTL
  deriving DecidableEq, Repr

/-- Options (set.rs:40-45): one slot per modifier category.  The zero-sized
GET marker slot is Option Unit. -/
structure Options where
  expiry : Option Expiry
  existence : Option Existence
  get : Option Unit
  deriving DecidableEq, Repr

/-- Default for Options (derive(Default), set.rs:39). -/
def Options.default : Options := ⟨none, none, none⟩

/-- The OptionsEnum inside Options::deserialize (set.rs:50-55). -/
inductive OptionsEnum where
  | expiry (e : Expiry)
  | existence (e : Existence)
  | get
  deriving DecidableEq, Repr

/-- Set (set.rs:29-36) without its zero-sized marker field. -/
structure SetCmd where
  key : Bytes
  value : Bytes
  options : Options
  deriving DecidableEq, Repr

/-- Get (redis/src/parser/commands/get.rs:17-21) without its zero-sized
marker field. -/
structure Get where
  key : Bytes
  deriving DecidableEq, Repr

/-- Commands (redis/src/parser/commands/mod.rs:13-24). -/
inductive Commands where
  | get (g : Get)
  | set (s : SetCmd)
  deriving DecidableEq, Repr

/-- The serde enum derive for Existence over the RESP deserializer:
deserialize_enum → Enum::variant_seed (deserializer.rs:419-425), the variant
identifier read through deserialize_identifier = deserialize_str, matched
exactly against the variant names; after a successful identifier the
variant_seed body executes dbg!(std::str::from_utf8(self.de.input).unwrap()),
which panics when the advanced input is not UTF-8; both variants are unit
variants (unit_variant → Ok). -/
def existenceDeserialize (i : Bytes) : DRes Existence :=
  match deserializeString i with
  | .err e => .err e
  | .panic => .panic
  | .ok j s =>
    if s = bytes "NX" then (if utf8Valid j then .ok j .NX else .panic)
    else if s = bytes "XX" then (if utf8Valid j then .ok j .XX else .panic)
    else .err (.Message "unknown variant")

/-- The serde enum derive for Expiry over the RESP deserializer (same shape
as for Existence); EX/PX/EXAT are newtype variants whose u32 payload is
decoded by deserialize_u32, KEEPTTL is a unit variant. -/
def expiryDeserialize (i : Bytes) : DRes Expiry :=
  match deserializeString i with
  | .err e => .err e
  | .panic => .panic
  | .ok j s =>
    if s = bytes "EX" then
      if utf8Valid j then
        match deserializeU32 j with
        | .ok j2 n => .ok j2 (.EX n)
        | .err e => .err e
        | .panic => .panic
      else .panic
    else if s = bytes "PX" then
      if utf8Valid j then
        match deserializeU32 j with
        | .ok j2 n => .ok j2 (.PX n)
        | .err e => .err e
        | .panic => .panic
      else .panic
    else if s = bytes "EXAT" then
      if utf8Valid j then
        match deserializeU32 j with
        | .ok j2 n => .ok j2 (.EXAT n)
        | .err e => .err e
        | .panic => .panic
      else .panic
    else if s = bytes "KEEPTTL" then
      (if utf8Valid j then .ok j .KEEPTTL else .panic)
    else .err (.Message "unknown variant")

/-- The DeserializeUntagged derive (macro_derive/src/lib.rs:13-78, the
top-level crate cited by the claims) applied to OptionsEnum:
Deserialize::deserialize calls deserializer.deserialize_bytes(visitor);
deserialize_bytes (deserializer.rs:302-306) hands the visitor the entire
remaining input WITHOUT consuming any of it; visit_borrowed_bytes then
trial-decodes the candidate variants in declaration order (Expiry,
Existence, GET) with crate::parser::from_slice on that borrowed slice and
returns the first success (a panic inside a trial propagates).  The
`v = &v[10..]` after a successful trial (lib.rs:68) only reslices the
visitor-local copy, so the deserializer input is returned untouched. -/
def optionsEnumDeserialize (i : Bytes) : DRes OptionsEnum :=
  match runFromSlice expiryDeserialize i with
  | .ok v => .ok i (.expiry v)
  | .panic => .panic
  | .err _ =>
    match runFromSlice existenceDeserialize i with
    | .ok v => .ok i (.existence v)
    | .panic => .panic
    | .err _ =>
      match runFromSlice (deserializeUnitStruct (bytes "GET")) i with
      | .ok _ => .ok i .get
      | .panic => .panic
      | .err _ => .err (.Message "No fitting option found")

/-- Slot assignment in OptionsVisitor::visit_seq (set.rs:76-82): the slot is
overwritten unconditionally; there is no duplicate check. -/
def applyOption (acc : Options) : OptionsEnum → Options
  | .expiry e => { acc with expiry := some e }
  | .existence e => { acc with existence := some e }
  | .get => { acc with get := some () }

/-- The `for _ in 0..3` loop of OptionsVisitor::visit_seq (set.rs:65-88):
exactly three next_element calls; a failed element (res not Ok(Some ..))
is silently skipped — the match is inside `if let Ok(Some(option)) = res` —
and the loop always finishes with Ok(options).  A failed
optionsEnumDeserialize leaves the cursor where it was (its trials never
consume), so the loop continues from the same position. -/
def optionsSeqLoop : Nat → Bytes → Option Nat → Options → DRes Options
  | 0, i, _, acc => .ok i acc
  | k + 1, i, ni, acc =>
    match sliceNext optionsEnumDeserialize i ni with
    | (.panic, _) => .panic
    | (.ok j (some v), ni2) => optionsSeqLoop k j ni2 (applyOption acc v)
    | (.ok j none, ni2) => optionsSeqLoop k j ni2 acc
    | (.err _, ni2) => optionsSeqLoop k i ni2 acc

/-- Options::deserialize (set.rs:47-92): deserialize_seq(OptionsVisitor) —
the optional sequence header, then the three-iteration visitor loop starting
from empty slots. -/
def optionsDeserialize (i : Bytes) : DRes Options :=
  match seqHeader i with
  | .err e => .err e
  | .panic => .panic
  | .ok i0 ni0 => optionsSeqLoop 3 i0 ni0 Options.default

/-- The serde struct derive for Set (set.rs:29-36) over the RESP
deserializer: deserialize_struct forwards to deserialize_seq
(deserializer.rs:383-385), so the array header is consumed and the four
fields decode positionally: the zero-sized SET marker (unit struct,
case-insensitive), key and value strings, and the Options aggregate, which
carries serde(default) — a missing options element falls back to
Options::default(). -/
def setDeserialize (i : Bytes) : DRes SetCmd :=
  match seqHeader i with
  | .err e => .err e
  | .panic => .panic
  | .ok i0 ni0 =>
    match sliceNext (deserializeUnitStruct (bytes "SET")) i0 ni0 with
    | (.err e, _) => .err e
    | (.panic, _) => .panic
    | (.ok i1 o1, ni1) =>
      match o1 with
      | none => .err (.Message "invalid length, missing field cmd")
      | some _ =>
        match sliceNext deserializeString i1 ni1 with
        | (.err e, _) => .err e
        | (.panic, _) => .panic
        | (.ok i2 o2, ni2) =>
          match o2 with
          | none => .err (.Message "invalid length, missing field key")
          | some k =>
            match sliceNext deserializeString i2 ni2 with
            | (.err e, _) => .err e
            | (.panic, _) => .panic
            | (.ok i3 o3, ni3) =>
              match o3 with
              | none => .err (.Message "invalid length, missing field value")
              | some v =>
                match sliceNext optionsDeserialize i3 ni3 with
                | (.err e, _) => .err e
                | (.panic, _) => .panic
                | (.ok i4 o4, _) =>
                  .ok i4 { key := k, value := v, options := o4.getD Options.default }

/-- The serde struct derive for Get (get.rs:17-21) over the RESP
deserializer: header, then the zero-sized GET marker and the key string. -/
def getDeserialize (i : Bytes) : DRes Get :=
  match seqHeader i with
  | .err e => .err e
  | .panic => .panic
  | .ok i0 ni0 =>
    match sliceNext (deserializeUnitStruct (bytes "GET")) i0 ni0 with
    | (.err e, _) => .err e
    | (.panic, _) => .panic
    | (.ok i1 o1, ni1) =>
      match o1 with
      | none => .err (.Message "invalid length, missing field cmd")
      | some _ =>
        match sliceNext deserializeString i1 ni1 with
        | (.err e, _) => .err e
        | (.panic, _) => .panic
        | (.ok i2 o2, _) =>
          match o2 with
          | none => .err (.Message "invalid length, missing field key")
          | some k => .ok i2 { key := k }

def setFromSlice (s : Bytes) : RustRes SetCmd := runFromSlice setDeserialize s

/-! ## The Commands enum (redis/src/parser/commands/mod.rs:13-24)

`#[derive(Deserialize)] #[serde(tag = "untagged")]` makes serde treat
Commands as an internally tagged enum: Commands::deserialize calls
Deserializer::deserialize_any with serde's private TaggedContentVisitor,
which (for a sequence input) reads the first element as the variant
identifier and buffers the remaining elements into serde's private Content
tree; the chosen variant is then deserialized from a ContentDeserializer
over that buffered tree.  The definitions below transcribe that generated
pipeline specialised to Commands.
-/

/-- serde's private Content tree, restricted to the shapes our
deserialize_any (deserializer.rs:84-99) can produce.  Double frames (',')
are outside this embedding (floating point); no claim exercises them. -/
inductive Content where
  | str (s : Bytes)
  | int (n : Int)
  | boolean (b : Bool)
  | unit
  | seq (xs : List Content)
  | map (xs : List (Content × Content))

/-- The header step of deserialize_map (deserializer.rs:374-381):
delimited(char %, is_not TERM, terminator) with errors propagated, then
parse_digits on the count (its remainder discarded), the count taken as
usize. -/
def mapHeader (i : Bytes) : DRes Nat :=
  match prefixedLine 37 i with
  | .err e => .err (.Parsing e)
  | .panic => .panic
  | .ok i1 numBytes =>
    match parse_digits numBytes with
    | .err e => .err (.Parsing e)
    | .panic => .panic
    | .ok _ n => .ok i1 n.toNat

mutual
/-- Content::deserialize over the RESP deserializer: serde's ContentVisitor
fed by deserialize_any (deserializer.rs:84-99), which dispatches on the
first input byte — sequences and maps recurse, '+' '-' '$' '(' '!' '='
route through deserialize_str (so only actual `string`-combinator tokens
succeed), ':' is an i64, '_' a null, '#' a boolean; an empty input panics
(`.first().expect(..)`), an unknown prefix byte hits unimplemented! (also a
panic).  The fuel argument only bounds the recursion depth; every theorem
below evaluates it at concrete inputs with ample fuel. -/
def contentFromAny : Nat → Bytes → DRes Content
  | 0, _ => .err (.Message "out of fuel")
  | fuel + 1, i =>
    match i with
    | [] => .panic
    | b :: _ =>
      if b = 42 ∨ b = 126 ∨ b = 62 then
        match seqHeader i with
        | .err e => .err e
        | .panic => .panic
        | .ok i0 ni0 =>
          match contentSeqLoop fuel i0 ni0 [] with
          | .ok j xs => .ok j (.seq xs)
          | .err e => .err e
          | .panic => .panic
      else if b = 37 then
        match mapHeader i with
        | .err e => .err e
        | .panic => .panic
        | .ok i0 n =>
          match contentMapLoop fuel i0 n [] with
          | .ok j xs => .ok j (.map xs)
          | .err e => .err e
          | .panic => .panic
      else if b = 43 ∨ b = 45 ∨ b = 36 ∨ b = 40 ∨ b = 33 ∨ b = 61 then
        match deserializeString i with
        | .ok j s => .ok j (.str s)
        | .err e => .err e
        | .panic => .panic
      else if b = 58 then
        match deserializeI64 i with
        | .ok j n => .ok j (.int n)
        | .err e => .err e
        | .panic => .panic
      else if b = 95 then
        match deserializeUnit i with
        | .ok j _ => .ok j .unit
        | .err e => .err e
        | .panic => .panic
      else if b = 35 then
        match deserializeBool i with
        | .ok j v => .ok j (.boolean v)
        | .err e => .err e
        | .panic => .panic
      else if b = 44 then .err (.Message "double (f64) frames not modelled")
      else .panic

/-- ContentVisitor::visit_seq: collect elements through the Slice counter
until it reports None; element errors propagate. -/
def contentSeqLoop : Nat → Bytes → Option Nat → List Content → DRes (List Content)
  | 0, _, _, _ => .err (.Message "out of fuel")
  | fuel + 1, i, ni, acc =>
    match ni with
    | some 0 => .ok i acc.reverse
    | some (m + 1) =>
      match contentFromAny fuel i with
      | .err e => .err e
      | .panic => .panic
      | .ok j c => contentSeqLoop fuel j (some m) (c :: acc)
    | none =>
      match contentFromAny fuel i with
      | .err e => .err e
      | .panic => .panic
      | .ok j c => contentSeqLoop fuel j none (c :: acc)

/-- ContentVisitor::visit_map over MapSlice (deserializer.rs:493-511):
next_key returns None at zero remaining entries; next_value decrements. -/
def contentMapLoop : Nat → Bytes → Nat → List (Content × Content) → DRes (List (Content × Content))
  | 0, _, _, _ => .err (.Message "out of fuel")
  | fuel + 1, i, n, acc =>
    match n with
    | 0 => .ok i acc.reverse
    | m + 1 =>
      match contentFromAny fuel i with
      | .err e => .err e
      | .panic => .panic
      | .ok j k =>
        match contentFromAny fuel j with
        | .err e => .err e
        | .panic => .panic
        | .ok j2 v => contentMapLoop fuel j2 m ((k, v) :: acc)
end

/-- The generated variant-identifier Deserialize for Commands: one
deserialize_identifier call (→ deserialize_str), the string matched against
the variant names and their serde aliases (mod.rs:17-22). -/
inductive CommandsField where
  | get | set
  deriving DecidableEq, Repr

def commandsFieldDeserialize (i : Bytes) : DRes CommandsField :=
  match deserializeString i with
  | .err e => .err e
  | .panic => .panic
  | .ok j s =>
    if s = bytes "Get" ∨ s = bytes "GET" ∨ s = bytes "get" then .ok j .get
    else if s = bytes "Set" ∨ s = bytes "SET" ∨ s = bytes "set" then .ok j .set
    else .err (.Message "unknown variant")

/-- A unit struct (the zero-sized GET / SET markers) deserialized from a
buffered Content via serde's ContentDeserializer::deserialize_unit_struct:
an empty buffered map is accepted as a special case, anything else falls
through to deserialize_any, where only Content::Unit reaches the unit-struct
visitor's visit_unit — in particular a buffered string is an invalid-type
error. -/
def unitMarkerFromContent : Content → Except RError Unit
  | .map [] => .ok ()
  | .unit => .ok ()
  | _ => .error (.Message "invalid type, expected unit struct")

/-- String::deserialize over ContentDeserializer: only a buffered string
succeeds. -/
def contentAsString : Content → Except RError Bytes
  | .str s => .ok s
  | _ => .error (.Message "invalid type, expected a string")

/-- The Get struct derive over ContentDeserializer (serde's
visit_content_seq): the zero-sized marker from the first buffered element,
the key string from the second, then SeqDeserializer::end() which rejects
leftover elements. -/
def getFromContents (xs : List Content) : Except RError Get :=
  match xs with
  | [] => .error (.Message "invalid length 0, expected struct Get with 2 elements")
  | c0 :: t0 =>
    match unitMarkerFromContent c0 with
    | .error e => .error e
    | .ok _ =>
      match t0 with
      | [] => .error (.Message "invalid length 1, expected struct Get with 2 elements")
      | c1 :: t1 =>
        match contentAsString c1 with
        | .error e => .error e
        | .ok k =>
          match t1 with
          | [] => .ok { key := k }
          | _ => .error (.Message "unexpected trailing elements")

/-- Options::deserialize over a ContentDeserializer: deserialize_seq only
accepts a buffered sequence; the OptionsVisitor loop then runs its three
next_element calls, and every OptionsEnum trial fails there — the
DeserializeUntagged visitor implements only visit_borrowed_bytes, which
ContentDeserializer::deserialize_bytes never calls for buffered strings or
sequences — so all element errors are swallowed, all slots stay None, and
SeqDeserializer::end() rejects a buffer of more than three elements. -/
def optionsFromContent : Content → Except RError Options
  | .seq v =>
    if v.length ≤ 3 then .ok Options.default
    else .error (.Message "unexpected trailing elements")
  | _ => .error (.Message "invalid type, expected a sequence")

/-- The Set struct derive over ContentDeserializer: marker, key, value,
then the serde(default) options field, then the end() check. -/
def setFromContents (xs : List Content) : Except RError SetCmd :=
  match xs with
  | [] => .error (.Message "invalid length 0, expected struct Set with 4 elements")
  | c0 :: t0 =>
    match unitMarkerFromContent c0 with
    | .error e => .error e
    | .ok _ =>
      match t0 with
      | [] => .error (.Message "invalid length 1, expected struct Set with 4 elements")
      | c1 :: t1 =>
        match contentAsString c1 with
        | .error e => .error e
        | .ok k =>
          match t1 with
          | [] => .error (.Message "invalid length 2, expected struct Set with 4 elements")
          | c2 :: t2 =>
            match contentAsString c2 with
            | .error e => .error e
            | .ok v =>
              match t2 with
              | [] => .ok { key := k, value := v, options := Options.default }
              | c3 :: t3 =>
                match optionsFromContent c3 with
                | .error e => .error e
                | .ok opts =>
                  match t3 with
                  | [] => .ok { key := k, value := v, options := opts }
                  | _ => .error (.Message "unexpected trailing elements")

/-- A scalar-headed input handed to the internally tagged derive: the
deserializer parses the token, then TaggedContentVisitor (which implements
only visit_seq and visit_map) rejects the produced scalar with an
invalid-type error; a parse failure surfaces first. -/
def commandsScalarBranch (i : Bytes) : DRes Commands :=
  match i with
  | [] => .panic
  | b :: _ =>
    if b = 43 ∨ b = 45 ∨ b = 36 ∨ b = 40 ∨ b = 33 ∨ b = 61 then
      match deserializeString i with
      | .ok _ _ => .err (.Message "invalid type, expected internally tagged enum")
      | .err e => .err e
      | .panic => .panic
    else if b = 58 then
      match deserializeI64 i with
      | .ok _ _ => .err (.Message "invalid type, expected internally tagged enum")
      | .err e => .err e
      | .panic => .panic
    else if b = 95 then
      match deserializeUnit i with
      | .ok _ _ => .err (.Message "invalid type, expected internally tagged enum")
      | .err e => .err e
      | .panic => .panic
    else if b = 35 then
      match deserializeBool i with
      | .ok _ _ => .err (.Message "invalid type, expected internally tagged enum")
      | .err e => .err e
      | .panic => .panic
    else if b = 44 then .err (.Message "double (f64) frames not modelled")
    else .panic

/-- Commands::deserialize via from_slice: serde's internally tagged derive.
For a sequence input, TaggedContentVisitor::visit_seq takes the FIRST array
element as the variant identifier (consuming it), buffers the remaining
elements into Content, and hands only those buffered elements to the chosen
variant struct; that struct still expects its zero-sized marker field first.
The tagged map path ('%' input) of the derive is not transcribed (no claim
reaches it). -/
def commandsFromSlice (s : Bytes) : RustRes Commands :=
  let res : DRes Commands :=
    match s with
    | [] => .panic
    | b :: _ =>
      if b = 42 ∨ b = 126 ∨ b = 62 then
        match seqHeader s with
        | .err e => .err e
        | .panic => .panic
        | .ok i0 ni0 =>
          match sliceNext commandsFieldDeserialize i0 ni0 with
          | (.err e, _) => .err e
          | (.panic, _) => .panic
          | (.ok i1 o1, ni1) =>
            match o1 with
            | none => .err (.Message "missing field untagged")
            | some fld =>
              match contentSeqLoop (s.length + 1) i1 ni1 [] with
              | .err e => .err e
              | .panic => .panic
              | .ok j xs =>
                match fld with
                | .get =>
                  match getFromContents xs with
                  | .ok g => .ok j (.get g)
                  | .error e => .err e
                | .set =>
                  match setFromContents xs with
                  | .ok st => .ok j (.set st)
                  | .error e => .err e
      else if b = 37 then .err (.Message "tagged map path not modelled")
      else commandsScalarBranch s
  match res with
  | .ok _ v => .ok v
  | .err e => .err e
  | .panic => .panic

/-- Byte encoding of an optional sign in an integer payload: no sign, a
plus, or a minus. -/
def signBytes : Option Bool → Bytes
  | none => []
  | some false => [43]
  | some true => [45]

/-- The sign factor the integer parser derives from an optional sign. -/
def signVal : Option Bool → Int
  | none => 1
  | some false => 1
  | some true => -1

/-! ## Supporting lemmas -/

theorem takeWhileB_all (p : Nat → Bool) :
    ∀ l : Bytes, (∀ b ∈ l, p b = true) → takeWhileB p l = (l, []) := by
  intro l h
  induction l with
  | nil => rfl
  | cons b r ih =>
    have hb : p b = true := h b (List.mem_cons_self b r)
    have hr := ih (fun x hx => h x (List.mem_cons_of_mem b hx))
    simp [takeWhileB, hb, hr]

theorem takeWhileB_append_stop (p : Nat → Bool) :
    ∀ (xs : Bytes) (y : Nat) (ys : Bytes), (∀ b ∈ xs, p b = true) → p y = false →
      takeWhileB p (xs ++ y :: ys) = (xs, y :: ys) := by
  intro xs y ys hxs hy
  induction xs with
  | nil => simp [takeWhileB, hy]
  | cons b r ih =>
    have hb : p b = true := hxs b (List.mem_cons_self b r)
    have hr := ih (fun x hx => hxs x (List.mem_cons_of_mem b hx))
    simp [takeWhileB, hb, hr]

theorem isPrefixB_append : ∀ (t rest : Bytes), isPrefixB t (t ++ rest) = true := by
  intro t rest
  induction t with
  | nil => rfl
  | cons a t1 ih => simp [isPrefixB, ih]

theorem tagP_append (t rest : Bytes) : tagP t (t ++ rest) = .ok rest t := by
  simp [tagP, isPrefixB_append, List.drop_left]

theorem takeP_append (xs rest : Bytes) : takeP xs.length (xs ++ rest) = .ok rest xs := by
  simp [takeP, List.take_left, List.drop_left]

theorem utf8Valid_ascii : ∀ l : Bytes, (∀ b ∈ l, b ≤ 127) → utf8Valid l = true := by
  intro l h
  induction l with
  | nil => rfl
  | cons b r ih =>
    have hb : b ≤ 127 := h b (List.mem_cons_self b r)
    have hr := ih (fun x hx => h x (List.mem_cons_of_mem b hx))
    show utf8Go 0 0 0 (b :: r) = true
    rw [utf8Go, if_pos hb]
    exact hr

theorem notCRLFb_of_digit {b : Nat} (h : isDigitB b = true) : notCRLFb b = true := by
  simp [isDigitB] at h
  simp [notCRLFb]
  omega

theorem le127_of_digit {b : Nat} (h : isDigitB b = true) : b ≤ 127 := by
  simp [isDigitB] at h
  omega

theorem terminator_cons (rest : Bytes) : terminator (13 :: 10 :: rest) = .ok rest CRLF := by
  have h := tagP_append CRLF rest
  simpa [terminator, CRLF] using h

theorem prefixedLine_ok (c : Nat) (payload rest : Bytes) (h1 : payload ≠ [])
    (h2 : ∀ b ∈ payload, notCRLFb b = true) :
    prefixedLine c (c :: (payload ++ 13 :: 10 :: rest)) = .ok rest payload := by
  have hnot : takeWhileB notCRLFb (payload ++ 13 :: 10 :: rest) = (payload, 13 :: 10 :: rest) :=
    takeWhileB_append_stop notCRLFb payload 13 (10 :: rest) h2 (by simp [notCRLFb])
  simp [prefixedLine, charP, isNotCRLF, hnot, h1, terminator_cons]

theorem parse_digits_ok (ds : Bytes) (h1 : ds ≠ []) (h2 : ∀ b ∈ ds, isDigitB b = true)
    (h3 : digitsVal ds ≤ i64MaxN) :
    parse_digits ds = .ok [] ((digitsVal ds : Int)) := by
  have hutf : utf8Valid ds = true := utf8Valid_ascii ds (fun b hb => le127_of_digit (h2 b hb))
  have htw : takeWhileB isDigitB ds = (ds, []) := takeWhileB_all isDigitB ds h2
  simp [parse_digits, hutf, htw, h1, h3]

theorem parse_digits_overflow (ds : Bytes) (h1 : ds ≠ []) (h2 : ∀ b ∈ ds, isDigitB b = true)
    (h3 : i64MaxN < digitsVal ds) :
    parse_digits ds = .err ⟨ds, .digit⟩ := by
  have hutf : utf8Valid ds = true := utf8Valid_ascii ds (fun b hb => le127_of_digit (h2 b hb))
  have htw : takeWhileB isDigitB ds = (ds, []) := takeWhileB_all isDigitB ds h2
  simp [parse_digits, hutf, htw, h1]
  omega

/-- The successful shape of a bulk string frame: header digits hs whose
value is the payload length, within the ceiling. -/
theorem bulk_string_ok (hs payload rest : Bytes) (h1 : hs ≠ [])
    (h2 : ∀ b ∈ hs, isDigitB b = true) (h3 : digitsVal hs = payload.length)
    (h4 : digitsVal hs ≤ 512 * 1024 * 1024) :
    bulk_string (36 :: (hs ++ 13 :: 10 :: (payload ++ 13 :: 10 :: rest))) = .ok rest payload := by
  have hhd := prefixedLine_ok 36 hs (payload ++ 13 :: 10 :: rest) h1
    (fun b hb => notCRLFb_of_digit (h2 b hb))
  have hmax : digitsVal hs ≤ i64MaxN := by
    have : (512 * 1024 * 1024 : Nat) ≤ i64MaxN := by norm_num [i64MaxN]
    omega
  have hpd := parse_digits_ok hs h1 h2 hmax
  have htk : takeP payload.length (payload ++ 13 :: 10 :: rest) = .ok (13 :: 10 :: rest) payload :=
    takeP_append payload (13 :: 10 :: rest)
  have hnotbig : ¬ (((digitsVal hs : Int)) > 512 * 1024 * 1024) := by omega
  simp [bulk_string, hhd, hpd, hnotbig, h3, htk, terminator_cons]
  omega

/-- The successful shape of a verbatim string frame: header digits vs whose
value is the payload length plus 4, a 3-byte encoding tag and a colon. -/
theorem verbatim_string_ok (vs enc payload rest : Bytes) (h1 : vs ≠ [])
    (h2 : ∀ b ∈ vs, isDigitB b = true) (henc : enc.length = 3)
    (h3 : digitsVal vs = payload.length + 4) (h4 : digitsVal vs ≤ 512 * 1024 * 1024) :
    verbatim_string (61 :: (vs ++ 13 :: 10 :: (enc ++ 58 :: (payload ++ 13 :: 10 :: rest)))) =
      .ok rest payload := by
  have hhd := prefixedLine_ok 61 vs (enc ++ 58 :: (payload ++ 13 :: 10 :: rest)) h1
    (fun b hb => notCRLFb_of_digit (h2 b hb))
  have hmax : digitsVal vs ≤ i64MaxN := by
    have : (512 * 1024 * 1024 : Nat) ≤ i64MaxN := by norm_num [i64MaxN]
    omega
  have hpd := parse_digits_ok vs h1 h2 hmax
  have henc3 : takeP 3 (enc ++ 58 :: (payload ++ 13 :: 10 :: rest)) =
      .ok (58 :: (payload ++ 13 :: 10 :: rest)) enc := by
    have := takeP_append enc (58 :: (payload ++ 13 :: 10 :: rest))
    rwa [henc] at this
  have hnotbig : ¬ (((digitsVal vs : Int)) > 512 * 1024 * 1024) := by omega
  have htk : takeP payload.length (payload ++ 13 :: 10 :: rest) = .ok (13 :: 10 :: rest) payload :=
    takeP_append payload (13 :: 10 :: rest)
  have htoNat : ((digitsVal vs : Int)).toNat = payload.length + 4 := by omega
  simp [verbatim_string, hhd, hpd, hnotbig, henc3, charP, htoNat, htk, terminator_cons]
  omega

/-- opt(sign) strips exactly the sign bytes in front of a digit payload. -/
theorem optSign_sign_digits (sg : Option Bool) (d : Nat) (t : Bytes)
    (hd : isDigitB d = true) :
    optSign (signBytes sg ++ d :: t) = (d :: t, signVal sg) := by
  have h45 : d ≠ 45 := by simp [isDigitB] at hd; omega
  have h43 : d ≠ 43 := by simp [isDigitB] at hd; omega
  cases sg with
  | none => simp [signBytes, optSign, signVal, h45, h43]
  | some b => cases b <;> simp [signBytes, optSign, signVal]

/-- Integer::try_parse on a frame whose alternation yields the payload
signBytes sg ++ ds: the sign and the digits are split off and recombined. -/
theorem integerTryParse_payload (value : Bytes) (sg : Option Bool) (ds : Bytes) (i : Bytes)
    (hds : ds ≠ []) (hdig : ∀ b ∈ ds, isDigitB b = true) (hmax : digitsVal ds ≤ i64MaxN)
    (halt : integer_alt value = .ok i (signBytes sg ++ ds)) :
    integerTryParse value = .ok i (signVal sg * (digitsVal ds : Int)) := by
  rcases ds with _ | ⟨d, t⟩
  · exact absurd rfl hds
  have hopt := optSign_sign_digits sg d t (hdig d (List.mem_cons_self d t))
  have hpd := parse_digits_ok (d :: t) (by simp) hdig hmax
  simp [integerTryParse, halt, hopt, hpd]

/-- integer_alt commits to the big_number branch when the integer branch
fails. -/
theorem integer_alt_of_bignum (v i p : Bytes) (h1 : (integer v).isErr = true)
    (h2 : big_number v = .ok i p) : integer_alt v = .ok i p := by
  rcases hh : integer v with _ | e1 | _ <;> simp [hh, RRes.isErr] at h1
  simp [integer_alt, hh, h2]

/-- integer_alt commits to the string branch when the first two fail. -/
theorem integer_alt_of_string (v i p : Bytes) (h1 : (integer v).isErr = true)
    (h2 : (big_number v).isErr = true) (h3 : string v = .ok i p) :
    integer_alt v = .ok i p := by
  rcases hh : integer v with _ | e1 | _ <;> simp [hh, RRes.isErr] at h1
  rcases hb : big_number v with _ | e2 | _ <;> simp [hb, RRes.isErr] at h2
  simp [integer_alt, hh, hb, h3]

/-- string commits to its simple_string branch. -/
theorem string_of_simple (v i p : Bytes) (h : simple_string v = .ok i p) :
    string v = .ok i p := by
  simp [string, h]

/-- string commits to its bulk_string branch when simple_string fails. -/
theorem string_of_bulk (v i p : Bytes) (h1 : (simple_string v).isErr = true)
    (h2 : bulk_string v = .ok i p) : string v = .ok i p := by
  rcases hh : simple_string v with _ | e1 | _ <;> simp [hh, RRes.isErr] at h1
  simp [string, hh, h2]

/-- string commits to its verbatim_string branch when the first two fail. -/
theorem string_of_verbatim (v i p : Bytes) (h1 : (simple_string v).isErr = true)
    (h2 : (bulk_string v).isErr = true) (h3 : verbatim_string v = .ok i p) :
    string v = .ok i p := by
  rcases hh : simple_string v with _ | e1 | _ <;> simp [hh, RRes.isErr] at h1
  rcases hb : bulk_string v with _ | e2 | _ <;> simp [hb, RRes.isErr] at h2
  simp [string, hh, hb, h3]

/-- A prefixedLine parser fails on input whose first byte differs. -/
theorem prefixedLine_wrong_head (c b : Nat) (r : Bytes) (h : b ≠ c) :
    (prefixedLine c (b :: r)).isErr = true := by
  simp [prefixedLine, charP, h, RRes.isErr]

/-- bulk_string fails immediately on input not headed by the dollar byte. -/
theorem bulk_string_wrong_head (b : Nat) (r : Bytes) (h : b ≠ 36) :
    (bulk_string (b :: r)).isErr = true := by
  have := prefixedLine_wrong_head 36 b r h
  rcases hh : prefixedLine 36 (b :: r) with _ | _ | _ <;> simp [hh, RRes.isErr] at this ⊢
  simp [bulk_string, hh, RRes.isErr]

/-- OptionsVisitor::visit_seq can only finish with Ok (or unwind by panic):
element failures are swallowed by the `if let Ok(Some(option))` and no
duplicate check exists, so no error value is ever produced. -/
theorem optionsSeqLoop_never_err :
    ∀ (k : Nat) (i : Bytes) (ni : Option Nat) (acc : Options),
      (optionsSeqLoop k i ni acc).isErr = false := by
  intro k
  induction k with
  | zero => intro i ni acc; simp [optionsSeqLoop, DRes.isErr]
  | succ m ih =>
    intro i ni acc
    rw [optionsSeqLoop]
    rcases h : sliceNext optionsEnumDeserialize i ni with ⟨res, ni2⟩
    rcases res with ⟨j, v⟩ | e | _
    · rcases v with _ | v
      · exact ih j ni2 acc
      · exact ih j ni2 (applyOption acc v)
    · exact ih i ni2 acc
    · rfl

theorem nullP_nbs (rest : Bytes) : nullP (bytes "$-1\r\n" ++ rest) = .ok rest () := by
  have h := tagP_append (bytes "$-1\r\n") rest
  simp [nullP, h]

theorem nullP_narr (rest : Bytes) : nullP (bytes "*-1\r\n" ++ rest) = .ok rest () := by
  have h1 : isPrefixB (bytes "$-1\r\n") (bytes "*-1\r\n" ++ rest) = false := rfl
  have e1 : tagP (bytes "$-1\r\n") (bytes "*-1\r\n" ++ rest) =
      .err ⟨bytes "*-1\r\n" ++ rest, .tag⟩ := by simp [tagP, h1]
  have h2 := tagP_append (bytes "*-1\r\n") rest
  simp [nullP, e1, h2]

theorem nullP_null (rest : Bytes) : nullP (bytes "_\r\n" ++ rest) = .ok rest () := by
  have h1 : isPrefixB (bytes "$-1\r\n") (bytes "_\r\n" ++ rest) = false := rfl
  have h2 : isPrefixB (bytes "*-1\r\n") (bytes "_\r\n" ++ rest) = false := rfl
  have e1 : tagP (bytes "$-1\r\n") (bytes "_\r\n" ++ rest) =
      .err ⟨bytes "_\r\n" ++ rest, .tag⟩ := by simp [tagP, h1]
  have e2 : tagP (bytes "*-1\r\n") (bytes "_\r\n" ++ rest) =
      .err ⟨bytes "_\r\n" ++ rest, .tag⟩ := by simp [tagP, h2]
  have h3 := tagP_append (bytes "_\r\n") rest
  simp [nullP, e1, e2, h3]

/-- nullP rejects a dollar-headed input whose second byte is not the minus
sign (e.g. a bulk string with an actual length). -/
theorem nullP_dollar_digit (h0 : Nat) (t : Bytes) (hh : h0 ≠ 45) :
    (nullP (36 :: h0 :: t)).isErr = true := by
  have e1 : bytes "$-1\r\n" = [36, 45, 49, 13, 10] := rfl
  have hd : decide (45 = h0) = false := by simp; omega
  have h1 : isPrefixB (bytes "$-1\r\n") (36 :: h0 :: t) = false := by
    rw [e1]; simp [isPrefixB, hd]
  have h2 : isPrefixB (bytes "*-1\r\n") (36 :: h0 :: t) = false := rfl
  have h3 : isPrefixB (bytes "_\r\n") (36 :: h0 :: t) = false := rfl
  simp [nullP, tagP, h1, h2, h3, RRes.isErr]

/-- Every byte of an optionally signed digit payload is outside the CRLF
stop set. -/
theorem payload_notCRLF (sg : Option Bool) (ds : Bytes)
    (hdig : ∀ b ∈ ds, isDigitB b = true) :
    ∀ b ∈ signBytes sg ++ ds, notCRLFb b = true := by
  intro b hb
  rcases List.mem_append.mp hb with h | h
  · cases sg with
    | none => simp [signBytes] at h
    | some s =>
      cases s <;> simp [signBytes] at h <;> subst h <;> rfl
  · exact notCRLFb_of_digit (hdig b h)

theorem signBytes_ds_ne_nil (sg : Option Bool) (ds : Bytes) (h : ds ≠ []) :
    signBytes sg ++ ds ≠ [] := by
  simp [h]

/-- integer_alt on a big number frame carrying an optionally signed digit
payload. -/
theorem integer_alt_bignum_frame (sg : Option Bool) (ds rest : Bytes)
    (hds : ds ≠ []) (hdig : ∀ b ∈ ds, isDigitB b = true) :
    integer_alt (40 :: ((signBytes sg ++ ds) ++ 13 :: 10 :: rest)) =
      .ok rest (signBytes sg ++ ds) := by
  have hint := prefixedLine_wrong_head 58 40 ((signBytes sg ++ ds) ++ 13 :: 10 :: rest) (by decide)
  have hbig := prefixedLine_ok 40 (signBytes sg ++ ds) rest
    (signBytes_ds_ne_nil sg ds hds) (payload_notCRLF sg ds hdig)
  exact integer_alt_of_bignum _ _ _ hint hbig

/-- integer_alt on a simple string frame carrying an optionally signed digit
payload. -/
theorem integer_alt_simple_frame (sg : Option Bool) (ds rest : Bytes)
    (hds : ds ≠ []) (hdig : ∀ b ∈ ds, isDigitB b = true) :
    integer_alt (43 :: ((signBytes sg ++ ds) ++ 13 :: 10 :: rest)) =
      .ok rest (signBytes sg ++ ds) := by
  have hint := prefixedLine_wrong_head 58 43 ((signBytes sg ++ ds) ++ 13 :: 10 :: rest) (by decide)
  have hbig := prefixedLine_wrong_head 40 43 ((signBytes sg ++ ds) ++ 13 :: 10 :: rest) (by decide)
  have hsim := prefixedLine_ok 43 (signBytes sg ++ ds) rest
    (signBytes_ds_ne_nil sg ds hds) (payload_notCRLF sg ds hdig)
  exact integer_alt_of_string _ _ _ hint hbig (string_of_simple _ _ _ hsim)

/-- integer_alt on a bulk string frame carrying an optionally signed digit
payload. -/
theorem integer_alt_bulk_frame (sg : Option Bool) (ds hs rest : Bytes)
    (hhs : hs ≠ []) (hhdig : ∀ b ∈ hs, isDigitB b = true)
    (hlen : digitsVal hs = (signBytes sg ++ ds).length)
    (hceil : digitsVal hs ≤ 512 * 1024 * 1024) :
    integer_alt (36 :: (hs ++ 13 :: 10 :: ((signBytes sg ++ ds) ++ 13 :: 10 :: rest))) =
      .ok rest (signBytes sg ++ ds) := by
  have hint : (integer (36 :: (hs ++ 13 :: 10 :: ((signBytes sg ++ ds) ++ 13 :: 10 :: rest)))).isErr = true :=
    prefixedLine_wrong_head 58 36 _ (by decide)
  have hbig : (big_number (36 :: (hs ++ 13 :: 10 :: ((signBytes sg ++ ds) ++ 13 :: 10 :: rest)))).isErr = true :=
    prefixedLine_wrong_head 40 36 _ (by decide)
  have hsim : (simple_string (36 :: (hs ++ 13 :: 10 :: ((signBytes sg ++ ds) ++ 13 :: 10 :: rest)))).isErr = true :=
    prefixedLine_wrong_head 43 36 _ (by decide)
  have hblk := bulk_string_ok hs (signBytes sg ++ ds) rest hhs hhdig hlen hceil
  exact integer_alt_of_string _ _ _ hint hbig (string_of_bulk _ _ _ hsim hblk)

/-- integer_alt on a verbatim string frame carrying an optionally signed
digit payload. -/
theorem integer_alt_verbatim_frame (sg : Option Bool) (ds vs enc rest : Bytes)
    (hvs : vs ≠ []) (hvdig : ∀ b ∈ vs, isDigitB b = true) (henc : enc.length = 3)
    (hlen : digitsVal vs = (signBytes sg ++ ds).length + 4)
    (hceil : digitsVal vs ≤ 512 * 1024 * 1024) :
    integer_alt (61 :: (vs ++ 13 :: 10 :: (enc ++ 58 :: ((signBytes sg ++ ds) ++ 13 :: 10 :: rest)))) =
      .ok rest (signBytes sg ++ ds) := by
  have hint : (integer (61 :: (vs ++ 13 :: 10 :: (enc ++ 58 :: ((signBytes sg ++ ds) ++ 13 :: 10 :: rest))))).isErr = true :=
    prefixedLine_wrong_head 58 61 _ (by decide)
  have hbig : (big_number (61 :: (vs ++ 13 :: 10 :: (enc ++ 58 :: ((signBytes sg ++ ds) ++ 13 :: 10 :: rest))))).isErr = true :=
    prefixedLine_wrong_head 40 61 _ (by decide)
  have hsim : (simple_string (61 :: (vs ++ 13 :: 10 :: (enc ++ 58 :: ((signBytes sg ++ ds) ++ 13 :: 10 :: rest))))).isErr = true :=
    prefixedLine_wrong_head 43 61 _ (by decide)
  have hblk : (bulk_string (61 :: (vs ++ 13 :: 10 :: (enc ++ 58 :: ((signBytes sg ++ ds) ++ 13 :: 10 :: rest))))).isErr = true :=
    bulk_string_wrong_head 61 _ (by decide)
  have hvrb := verbatim_string_ok vs enc (signBytes sg ++ ds) rest hvs hvdig henc hlen hceil
  exact integer_alt_of_string _ _ _ hint hbig (string_of_verbatim _ _ _ hsim hblk hvrb)

/-! ## Claim theorems -/

/-- C1: the claim states that "*2\r\n$3\r\nGET\r\n$5\r\nhello\r\n" decodes at
the Commands target to Get with key "hello", the zero-sized marker consuming
the first array element.  The code disagrees: serde's internally tagged
derive (tag = "untagged") consumes the first array element as the variant
tag and hands the Get struct only the buffered remainder, so the marker
field receives the buffered string "hello" and fails with an invalid-type
error.  The second conjunct shows the marker mechanism itself works exactly
as the claim describes when the Get struct is the direct target: only the
enum wrapper breaks it. -/
theorem c1_commands_get_decode_errors :
    commandsFromSlice (bytes "*2\r\n$3\r\nGET\r\n$5\r\nhello\r\n") =
      .err (.Message "invalid type, expected unit struct") ∧
    getDeserialize (bytes "*2\r\n$3\r\nGET\r\n$5\r\nhello\r\n") =
      .ok [] { key := bytes "hello" } := by
  constructor
  · decide
  · decide

/-- C6: the claim states decoding never panics and that "#x\r\n" and
":12a3\r\n" are rejected with returned errors.  The code panics on both:
Boolean::try_parse hits unreachable!("booleans can only be f or t") and
Integer::try_parse hits assert_eq!(j.len(), 0) on the trailing "a3". -/
theorem c6_panics_on_bad_bool_and_int :
    booleanTryParse (bytes "#x\r\n") = .panic ∧
    integerTryParse (bytes ":12a3\r\n") = .panic := by
  constructor
  · decide
  · decide

/-- C8: the claim states u64/u128 targets accept any value fitting the
width, e.g. ":5\r\n" at a u64 target yields 5.  The code rejects every
integer at those targets: the range check compares against
`u64::MAX as i64` and `u128::MAX as i64`, both of which wrap to -1, so
`int > -1 || int < 0` always holds; the error payload for u128 even reports
max = -1 because `u128::MAX as i128` wraps too. -/
theorem c8_u64_u128_always_out_of_range :
    deserializeU64 (bytes ":5\r\n") = .err (.IntegerOutOfRange 0 18446744073709551615 5) ∧
    deserializeU128 (bytes ":5\r\n") = .err (.IntegerOutOfRange 0 (-1) 5) ∧
    deserializeU64 (bytes ":0\r\n") = .err (.IntegerOutOfRange 0 18446744073709551615 0) := by
  refine ⟨?_, ?_, ?_⟩ <;> decide

/-- C7 counterexample: the claim requires a dedicated Incomplete error,
distinct from Malformed, for every strict prefix of a valid frame.  The
error type (serde_resp/mod.rs:11-46, embedded as RError) has no Incomplete
constructor at all: the strict prefix ":12" of the valid frame ":12\r\n"
is rejected with the same Parsing constructor every grammar violation
uses. -/
theorem c7_counterexample_no_incomplete :
    (deserializeI64 (bytes ":12")).isParsingErr = true ∧
    deserializeI64 (bytes ":12\r\n") = .ok [] 12 := by
  constructor
  · decide
  · decide

/-- C7 amended: the decoder does not distinguish "not enough bytes yet" from
"syntactically invalid"; the error type has no Incomplete variant, every
strict prefix of the valid frame ":12\r\n" is rejected with the Parsing
constructor, and a malformed-but-complete input (":\r\n") is rejected with
the very same constructor, so the caller cannot decide between buffering
and rejecting from the error type. -/
theorem c7_amended_single_error_kind :
    ((List.range 5).all fun k => (deserializeI64 ((bytes ":12\r\n").take k)).isParsingErr) = true ∧
    deserializeI64 (bytes ":12\r\n") = .ok [] 12 ∧
    (deserializeI64 (bytes ":\r\n")).isParsingErr = true := by
  refine ⟨?_, ?_, ?_⟩ <;> decide

/-- C4: each of the three null encodings decodes to None at an Option target
and to unit at a unit target, consuming exactly the null frame.  The null
combinator itself is modelled from the spec (see nullP). -/
theorem c4_null_variants (rest : Bytes) :
    deserializeOptionString (bytes "$-1\r\n" ++ rest) = .ok rest none ∧
    deserializeOptionString (bytes "*-1\r\n" ++ rest) = .ok rest none ∧
    deserializeOptionString (bytes "_\r\n" ++ rest) = .ok rest none ∧
    deserializeUnit (bytes "$-1\r\n" ++ rest) = .ok rest () ∧
    deserializeUnit (bytes "*-1\r\n" ++ rest) = .ok rest () ∧
    deserializeUnit (bytes "_\r\n" ++ rest) = .ok rest () := by
  refine ⟨?_, ?_, ?_, ?_, ?_, ?_⟩ <;>
    simp [deserializeOptionString, deserializeUnit, nullP_nbs rest, nullP_narr rest,
      nullP_null rest]

/-- C2 counterexample: the claim states the committed candidate advances the
real cursor by exactly the bytes it consumed.  On "$2\r\nNX\r\n:999\r\n" the
committed Existence candidate consumes 8 bytes (its own decode leaves
":999\r\n"), yet the untagged decode returns the cursor completely
unadvanced. -/
theorem c2_counterexample_cursor_not_advanced :
    existenceDeserialize (bytes "$2\r\nNX\r\n:999\r\n") = .ok (bytes ":999\r\n") .NX ∧
    optionsEnumDeserialize (bytes "$2\r\nNX\r\n:999\r\n") =
      .ok (bytes "$2\r\nNX\r\n:999\r\n") (.existence .NX) ∧
    bytes ":999\r\n" ≠ bytes "$2\r\nNX\r\n:999\r\n" := by
  refine ⟨?_, ?_, ?_⟩ <;> decide

/-- C2 amended: candidates are tried in declaration order and the first
success is committed, but the real cursor is never advanced: the trials run
on the borrowed whole input (deserialize_bytes does not consume) and the
hard-coded `v = &v[10..]` touches only a visitor-local slice, so decoding of
the remaining input resumes at the position before the untagged decode. -/
theorem c2_amended_first_match_no_advance :
    (∀ (i j : Bytes) (v : OptionsEnum), optionsEnumDeserialize i = .ok j v → j = i) ∧
    (∀ (i : Bytes) (v : Expiry), runFromSlice expiryDeserialize i = .ok v →
      optionsEnumDeserialize i = .ok i (.expiry v)) ∧
    (∀ (i : Bytes) (e : RError) (v : Existence),
      runFromSlice expiryDeserialize i = .err e →
      runFromSlice existenceDeserialize i = .ok v →
      optionsEnumDeserialize i = .ok i (.existence v)) := by
  refine ⟨?_, ?_, ?_⟩
  · intro i j v h
    unfold optionsEnumDeserialize at h
    rcases h1 : runFromSlice expiryDeserialize i with v1 | e1 | _ <;> rw [h1] at h
    · simp only [DRes.ok.injEq] at h
      exact h.1.symm
    · rcases h2 : runFromSlice existenceDeserialize i with v2 | e2 | _ <;> rw [h2] at h
      · simp only [DRes.ok.injEq] at h
        exact h.1.symm
      · rcases h3 : runFromSlice (deserializeUnitStruct (bytes "GET")) i with v3 | e3 | _ <;>
          rw [h3] at h
        · simp only [DRes.ok.injEq] at h
          exact h.1.symm
        · exact DRes.noConfusion h
        · exact DRes.noConfusion h
      · exact DRes.noConfusion h
    · exact DRes.noConfusion h
  · intro i v h
    unfold optionsEnumDeserialize
    rw [h]
  · intro i e v h1 h2
    unfold optionsEnumDeserialize
    rw [h1, h2]

/-- C2 witness: the amended theorem applied at a concrete state, where the
Expiry candidate fails, the Existence candidate succeeds, and the cursor is
returned unmoved. -/
theorem c2_witness_concrete :
    optionsEnumDeserialize (bytes "$2\r\nNX\r\n:999\r\n") =
      .ok (bytes "$2\r\nNX\r\n:999\r\n") (.existence .NX) :=
  c2_amended_first_match_no_advance.2.2 (bytes "$2\r\nNX\r\n:999\r\n")
    (.Message "unknown variant") .NX (by decide) (by decide)

/-- C3 counterexample: the claim states a SET frame with two EX tokens fails
with DuplicateOption.  The code decodes such a frame successfully: the
options visitor has no duplicate check (it overwrites slots), the error type
has no DuplicateOption variant, and because the untagged option decode never
advances the cursor the second EX token is not even examined — the frame
yields a Set whose expiry slot holds the first EX value. -/
theorem c3_counterexample_duplicate_ex_accepted :
    setFromSlice
      (bytes "*7\r\n$3\r\nSET\r\n$5\r\nhello\r\n$5\r\nworld\r\n$2\r\nEX\r\n$1\r\n1\r\n$2\r\nEX\r\n$1\r\n2\r\n") =
      .ok { key := bytes "hello", value := bytes "world",
            options := { expiry := some (.EX 1), existence := none, get := none } } := by
  decide

/-- C3 amended: populating the same option slot twice is not an error: the
OptionsVisitor loop swallows element failures and overwrites slots without
any duplicate detection, so it can never return an error value (first
conjunct), and a SET frame containing two EX tokens decodes successfully to
a Set command (second conjunct). -/
theorem c3_amended_no_duplicate_detection :
    (∀ (k : Nat) (i : Bytes) (ni : Option Nat) (acc : Options),
      (optionsSeqLoop k i ni acc).isErr = false) ∧
    setFromSlice
      (bytes "*7\r\n$3\r\nSET\r\n$5\r\nhello\r\n$5\r\nworld\r\n$2\r\nEX\r\n$1\r\n1\r\n$2\r\nEX\r\n$1\r\n2\r\n") =
      .ok { key := bytes "hello", value := bytes "world",
            options := { expiry := some (.EX 1), existence := none, get := none } } := by
  exact ⟨optionsSeqLoop_never_err, by decide⟩

/-- C5 counterexample: the claim states that for every inner shape a
non-null token is delegated to the inner decoder, e.g. ":5\r\n" at an
Option-of-integer target yields Some(5).  The code yields None: the next
token is gated through the `string` combinator, and an integer frame is not
a string token, so the final branch returns None without consuming
anything. -/
theorem c5_counterexample_integer_option_none :
    deserializeOptionI64 (bytes ":5\r\n") = .ok (bytes ":5\r\n") none := by
  decide

/-- C5 amended: when an Option shape is requested, a null token yields None
and is consumed; a token accepted by the `string` combinator is delegated to
the inner decoder (shown for a bulk-string-encoded integer, which yields
Some of its value); any other token yields None without consuming input. -/
theorem c5_amended_option_gated_by_string :
    (∀ (i j : Bytes), nullP i = .ok j () → deserializeOptionI64 i = .ok j none) ∧
    (∀ (hs ds rest : Bytes), hs ≠ [] → (∀ b ∈ hs, isDigitB b = true) →
      ds ≠ [] → (∀ b ∈ ds, isDigitB b = true) →
      digitsVal hs = ds.length → digitsVal hs ≤ 512 * 1024 * 1024 →
      digitsVal ds ≤ i64MaxN →
      deserializeOptionI64 (36 :: (hs ++ 13 :: 10 :: (ds ++ 13 :: 10 :: rest))) =
        .ok rest (some ((digitsVal ds : Int)))) ∧
    (∀ i : Bytes, (nullP i).isErr = true → (string i).isErr = true →
      deserializeOptionI64 i = .ok i none) := by
  refine ⟨?_, ?_, ?_⟩
  · intro i j h
    simp [deserializeOptionI64, h]
  · intro hs ds rest hhs hhdig hds hdig hlen hceil hmax
    rcases hs with _ | ⟨h0, t⟩
    · exact absurd rfl hhs
    have h0d := hhdig h0 (List.mem_cons_self _ _)
    have h45 : h0 ≠ 45 := by simp [isDigitB] at h0d; omega
    have hnull := nullP_dollar_digit h0 (t ++ 13 :: 10 :: (ds ++ 13 :: 10 :: rest)) h45
    have hblk := bulk_string_ok (h0 :: t) ds rest hhs hhdig hlen hceil
    have hsim : (simple_string (36 :: ((h0 :: t) ++ 13 :: 10 :: (ds ++ 13 :: 10 :: rest)))).isErr = true :=
      prefixedLine_wrong_head 43 36 _ (by decide)
    have hstr := string_of_bulk _ _ _ hsim hblk
    have halt := integer_alt_bulk_frame none ds (h0 :: t) rest hhs hhdig
      (by simpa [signBytes] using hlen) hceil
    have hitp := integerTryParse_payload _ none ds rest hds hdig hmax halt
    simp only [signBytes, List.nil_append, signVal, one_mul] at hitp
    simp only [List.cons_append] at hstr hitp ⊢
    rcases hnp : nullP (36 :: h0 :: (t ++ 13 :: 10 :: (ds ++ 13 :: 10 :: rest))) with ⟨j, u⟩ | e | _ <;>
      simp only [hnp] at hnull
    · simp [RRes.isErr] at hnull
    · simp [deserializeOptionI64, hnp, hstr, deserializeI64, hitp]
    · simp [RRes.isErr] at hnull
  · intro i h1 h2
    rcases hnp : nullP i with _ | e | _ <;> simp [hnp, RRes.isErr] at h1
    rcases hst : string i with _ | e2 | _ <;> simp [hst, RRes.isErr] at h2
    simp [deserializeOptionI64, hnp, hst]

/-- C5 witness: the amended theorem applied at concrete inputs — a
bulk-encoded integer yields Some(5), a null yields None, and a raw integer
frame yields None without consuming. -/
theorem c5_witness_concrete :
    deserializeOptionI64 (bytes "$1\r\n5\r\n") = .ok [] (some 5) ∧
    deserializeOptionI64 (bytes "$-1\r\n") = .ok [] none ∧
    deserializeOptionI64 (bytes ":5\r\n") = .ok (bytes ":5\r\n") none := by
  refine ⟨?_, ?_, ?_⟩
  · exact c5_amended_option_gated_by_string.2.1 [49] [53] [] (by decide) (by decide)
      (by decide) (by decide) (by decide) (by decide) (by decide)
  · exact c5_amended_option_gated_by_string.1 (bytes "$-1\r\n") [] (by decide)
  · exact c5_amended_option_gated_by_string.2.2 (bytes ":5\r\n") (by decide) (by decide)

/-- C9 counterexample: the claim states every frame declaring a length over
512 MiB fails with a size-limit error.  A declared length that overflows the
parser's own i64 length type ("$99999999999999999999\r\n") also declares a
length over 512 MiB, but fails with a Digit parse error from parse_digits,
not with the TooLarge size-limit error. -/
theorem c9_counterexample_overlong_length_not_toolarge :
    bulk_string (bytes "$99999999999999999999\r\n") =
      .err ⟨bytes "99999999999999999999", .digit⟩ ∧
    512 * 1024 * 1024 < digitsVal (bytes "99999999999999999999") ∧
    ErrKind.digit ≠ ErrKind.tooLarge := by
  refine ⟨?_, ?_, ?_⟩ <;> decide

/-- C9 amended: a bulk string frame whose payload is exactly the declared
length yields the payload (so "$0\r\n\r\n" yields the empty string); a frame
declaring a length above 512 MiB fails without reading the payload — with
the TooLarge size-limit error when the declared length fits in i64, and with
a Digit parse error when the declared digits overflow i64. -/
theorem c9_amended_bulk_string :
    (∀ (hs payload rest : Bytes), hs ≠ [] → (∀ b ∈ hs, isDigitB b = true) →
      digitsVal hs = payload.length → digitsVal hs ≤ 512 * 1024 * 1024 →
      bulk_string (36 :: (hs ++ 13 :: 10 :: (payload ++ 13 :: 10 :: rest))) = .ok rest payload) ∧
    (∀ (hs rest : Bytes), hs ≠ [] → (∀ b ∈ hs, isDigitB b = true) →
      512 * 1024 * 1024 < digitsVal hs → digitsVal hs ≤ i64MaxN →
      bulk_string (36 :: (hs ++ 13 :: 10 :: rest)) = .err ⟨rest, .tooLarge⟩) ∧
    (∀ (hs rest : Bytes), hs ≠ [] → (∀ b ∈ hs, isDigitB b = true) →
      i64MaxN < digitsVal hs →
      bulk_string (36 :: (hs ++ 13 :: 10 :: rest)) = .err ⟨hs, .digit⟩) := by
  refine ⟨bulk_string_ok, ?_, ?_⟩
  · intro hs rest h1 h2 h3 h4
    have hhd := prefixedLine_ok 36 hs rest h1 (fun b hb => notCRLFb_of_digit (h2 b hb))
    have hpd := parse_digits_ok hs h1 h2 h4
    have hgt : ((digitsVal hs : Int)) > 512 * 1024 * 1024 := by omega
    simp [bulk_string, hhd, hpd, hgt]
    intro hcon
    exact absurd hcon (by omega)
  · intro hs rest h1 h2 h3
    have hhd := prefixedLine_ok 36 hs rest h1 (fun b hb => notCRLFb_of_digit (h2 b hb))
    have hpd := parse_digits_overflow hs h1 h2 h3
    simp [bulk_string, hhd, hpd]

/-- C9 witness: the amended theorem applied at the concrete inputs named by
the specification — the empty bulk string, a 512 MiB + 1 declaration, and an
i64-overflowing declaration. -/
theorem c9_witness_concrete :
    bulk_string (bytes "$0\r\n\r\n") = .ok [] [] ∧
    bulk_string (bytes "$536870913\r\n") = .err ⟨[], .tooLarge⟩ ∧
    bulk_string (bytes "$99999999999999999999\r\n") =
      .err ⟨bytes "99999999999999999999", .digit⟩ := by
  refine ⟨?_, ?_, ?_⟩
  · exact c9_amended_bulk_string.1 [48] [] [] (by decide) (by decide) (by decide) (by decide)
  · exact c9_amended_bulk_string.2.1 (bytes "536870913") [] (by decide) (by decide)
      (by decide) (by decide)
  · exact c9_amended_bulk_string.2.2 (bytes "99999999999999999999") [] (by decide) (by decide)
      (by decide)

/-- C10 counterexample: the claim quantifies over every optionally signed
decimal payload whose value is within i64 range; the payload
-9223372036854775808 (i64::MIN, in range) fails, because str::parse runs on
the unsigned digit string 9223372036854775808, which exceeds i64::MAX. -/
theorem c10_counterexample_i64_min_rejected :
    integerTryParse (bytes "(-9223372036854775808\r\n") =
      .err ⟨bytes "9223372036854775808", .digit⟩ ∧
    -(2 ^ 63 : Int) ≤ -9223372036854775808 := by
  constructor
  · decide
  · decide

/-- C10 amended: the integer decoder accepts Big Number frames and
Simple/Bulk/Verbatim string frames whose payload is an optionally signed
decimal with digit magnitude at most i64::MAX, yielding the signed value —
which is how numeric command arguments arrive as bulk strings. -/
theorem c10_amended_integer_from_strings :
    (∀ (sg : Option Bool) (ds rest : Bytes), ds ≠ [] → (∀ b ∈ ds, isDigitB b = true) →
      digitsVal ds ≤ i64MaxN →
      integerTryParse (40 :: ((signBytes sg ++ ds) ++ 13 :: 10 :: rest)) =
        .ok rest (signVal sg * (digitsVal ds : Int))) ∧
    (∀ (sg : Option Bool) (ds rest : Bytes), ds ≠ [] → (∀ b ∈ ds, isDigitB b = true) →
      digitsVal ds ≤ i64MaxN →
      integerTryParse (43 :: ((signBytes sg ++ ds) ++ 13 :: 10 :: rest)) =
        .ok rest (signVal sg * (digitsVal ds : Int))) ∧
    (∀ (sg : Option Bool) (ds hs rest : Bytes), ds ≠ [] → (∀ b ∈ ds, isDigitB b = true) →
      digitsVal ds ≤ i64MaxN → hs ≠ [] → (∀ b ∈ hs, isDigitB b = true) →
      digitsVal hs = (signBytes sg ++ ds).length → digitsVal hs ≤ 512 * 1024 * 1024 →
      integerTryParse (36 :: (hs ++ 13 :: 10 :: ((signBytes sg ++ ds) ++ 13 :: 10 :: rest))) =
        .ok rest (signVal sg * (digitsVal ds : Int))) ∧
    (∀ (sg : Option Bool) (ds vs enc rest : Bytes), ds ≠ [] → (∀ b ∈ ds, isDigitB b = true) →
      digitsVal ds ≤ i64MaxN → vs ≠ [] → (∀ b ∈ vs, isDigitB b = true) → enc.length = 3 →
      digitsVal vs = (signBytes sg ++ ds).length + 4 → digitsVal vs ≤ 512 * 1024 * 1024 →
      integerTryParse (61 :: (vs ++ 13 :: 10 :: (enc ++ 58 :: ((signBytes sg ++ ds) ++ 13 :: 10 :: rest)))) =
        .ok rest (signVal sg * (digitsVal ds : Int))) := by
  refine ⟨?_, ?_, ?_, ?_⟩
  · intro sg ds rest h1 h2 h3
    exact integerTryParse_payload _ sg ds rest h1 h2 h3 (integer_alt_bignum_frame sg ds rest h1 h2)
  · intro sg ds rest h1 h2 h3
    exact integerTryParse_payload _ sg ds rest h1 h2 h3 (integer_alt_simple_frame sg ds rest h1 h2)
  · intro sg ds hs rest h1 h2 h3 h4 h5 h6 h7
    exact integerTryParse_payload _ sg ds rest h1 h2 h3
      (integer_alt_bulk_frame sg ds hs rest h4 h5 h6 h7)
  · intro sg ds vs enc rest h1 h2 h3 h4 h5 h6 h7 h8
    exact integerTryParse_payload _ sg ds rest h1 h2 h3
      (integer_alt_verbatim_frame sg ds vs enc rest h4 h5 h6 h7 h8)

/-- C10 witness: the amended theorem applied at the concrete frames named by
the specification tests: "+1000\r\n", "$4\r\n1000\r\n", "(-1000\r\n" and a
verbatim "=8\r\ntxt:1000\r\n". -/
theorem c10_witness_concrete :
    integerTryParse (bytes "+1000\r\n") = .ok [] 1000 ∧
    integerTryParse (bytes "$4\r\n1000\r\n") = .ok [] 1000 ∧
    integerTryParse (bytes "(-1000\r\n") = .ok [] (-1000) ∧
    integerTryParse (bytes "=8\r\ntxt:1000\r\n") = .ok [] 1000 := by
  refine ⟨?_, ?_, ?_, ?_⟩
  · exact c10_amended_integer_from_strings.2.1 none (bytes "1000") [] (by decide) (by decide)
      (by decide)
  · exact c10_amended_integer_from_strings.2.2.1 none (bytes "1000") [52] [] (by decide)
      (by decide) (by decide) (by decide) (by decide) (by decide) (by decide)
  · exact c10_amended_integer_from_strings.1 (some true) (bytes "1000") [] (by decide)
      (by decide) (by decide)
  · exact c10_amended_integer_from_strings.2.2.2 none (bytes "1000") [56] (bytes "txt") []
      (by decide) (by decide) (by decide) (by decide) (by decide) (by decide) (by decide)
      (by decide)

/-- C3 witness: the amended theorem applied at a concrete loop state and at
the duplicate-EX frame. -/
theorem c3_witness_concrete :
    (optionsSeqLoop 3 (bytes "$2\r\nNX\r\n") none Options.default).isErr = false :=
  c3_amended_no_duplicate_detection.1 3 (bytes "$2\r\nNX\r\n") none Options.default

/-- C4 witness: the null-variant theorem applied with an empty remainder. -/
theorem c4_witness_concrete :
    deserializeOptionString (bytes "$-1\r\n") = .ok [] none ∧
    deserializeUnit (bytes "_\r\n") = .ok [] () :=
  ⟨(c4_null_variants []).1, (c4_null_variants []).2.2.2.2.2⟩
